import Mathlib

/-!
Verification of the visibility and ownership-authorization core of the
blogicum content-publishing backend (blog/views.py, blog/forms.py).

The Django views are shallowly embedded as pure Lean functions over an
explicit database snapshot.  Machine behaviour of the framework helpers used
by the views (get_object_or_404, queryset filter/annotate/order_by, the
ListView paginator) is embedded faithfully from their documented semantics:
an Http404 outcome is `Option.none`, a redirect is an explicit constructor.
-/

/-- Entity structures.  blog/models.py is not part of the sources, so the
field layout is modelled from the spec's data-model section: Category holds
a slug and a publication flag; Post references its author and category and
carries `pub_date`/`is_published`; Comment references a post and an author.
The `location` field on Post mirrors the `select_related('location')` calls
in blog/views.py. -/
abbrev UserId := Nat

abbrev CategoryId := Nat

abbrev PostId := Nat

abbrev CommentId := Nat

/-- Instants are modelled as integers; only order is used by the code. -/
abbrev Time := Int

structure Category where
  id : CategoryId
  slug : String
  title : String
  is_published : Bool
deriving Repr, DecidableEq

structure Post where
  id : PostId
  author : UserId
  category : Category
  location : String
  title : String
  text : String
  pub_date : Time
  is_published : Bool
  created_at : Time
deriving Repr, DecidableEq

structure Comment where
  id : CommentId
  post : PostId
  author : UserId
  text : String
  created_at : Time
deriving Repr, DecidableEq

structure User where
  id : UserId
  username : String
deriving Repr, DecidableEq

/-- The persisted entity set read by the views. -/
structure DB where
  users : List User
  categories : List Category
  posts : List Post
  comments : List Comment
deriving Repr, DecidableEq

/-- `request.user`: `some uid` for an authenticated user, `none` for the
anonymous user (which compares unequal to every author). -/
abbrev Viewer := Option UserId

/-- `get_object_or_404(Post, pk=pk)` / `queryset.get(pk=post_pk)`:
the first stored post with the given primary key, if any. -/
def lookupPost (db : DB) (pk : PostId) : Option Post :=
  (db.posts.filter (fun p => p.id = pk)).head?

/-- `get_object_or_404(Comment, pk=comment_pk, post__pk=post_pk)`:
the first stored comment matching both the comment pk and the post pk. -/
def lookupComment (db : DB) (post_pk : PostId) (comment_pk : CommentId) :
    Option Comment :=
  (db.comments.filter (fun c => c.id = comment_pk && c.post = post_pk)).head?

/-- `get_object_or_404(User, username=...)`. -/
def lookupUser (db : DB) (username : String) : Option User :=
  (db.users.filter (fun u => u.username = username)).head?

/-- `get_object_or_404(Category, slug=..., is_published=True)` used by
`CategoryPostListView.get_context_data`. -/
def lookupPublishedCategory (db : DB) (slug : String) : Option Category :=
  (db.categories.filter (fun c => c.slug = slug && c.is_published)).head?

/-- `PostDetailView.get_object` (blog/views.py lines 106-118): resolve the
post by pk (404 if absent); 404 if the viewer is not the author and the
category or the post is unpublished; 404 if the post is future-dated and the
viewer is not the author; otherwise return the post.  `none` is the Http404
outcome. -/
def postDetailGetObject (db : DB) (viewer : Viewer) (now : Time)
    (post_pk : PostId) : Option Post :=
  match lookupPost db post_pk with
  | none => none
  | some post =>
    if (!decide (viewer = some post.author))
        && (!post.category.is_published || !post.is_published) then
      none
    else if decide (post.pub_date > now)
        && (!decide (viewer = some post.author)) then
      none
    else
      some post

/-- Spec-side visibility predicate, written from the spec's words
("visible iff viewer is the author, or is_published and
category.is_published and pub_date <= now"), to be compared with the
code's `postDetailGetObject`. -/
def isVisible (p : Post) (v : Viewer) (now : Time) : Bool :=
  decide (v = some p.author)
    || (p.is_published && p.category.is_published && decide (p.pub_date ≤ now))

/-- An element of a feed queryset: the post together with its
`comments_count` annotation when the view's queryset carries one
(`annotate(comments_count=Count('comments'))`), `none` when it does not. -/
structure FeedEntry where
  post : Post
  commentsCount : Option Nat
deriving Repr, DecidableEq

/-- `Count('comments')`: the number of persisted comments whose post
reference is this post. -/
def commentsCountOf (db : DB) (p : Post) : Nat :=
  (db.comments.filter (fun c => c.post = p.id)).length

/-- Stable descending insertion for `order_by('-pub_date')`: an element
moves ahead only of strictly older entries, so ties keep their original
relative order. -/
def insertByKeyDesc {α : Type} (key : α → Time) (x : α) :
    List α → List α
  | [] => [x]
  | y :: ys =>
    if key x ≥ key y then x :: y :: ys else y :: insertByKeyDesc key x ys

/-- `order_by('-pub_date')`: stable sort, newest first. -/
def sortKeyDesc {α : Type} (key : α → Time) : List α → List α
  | [] => []
  | x :: xs => insertByKeyDesc key x (sortKeyDesc key xs)

/-- The filter shared by the global feed: `is_published=True`,
`category__is_published=True`, `pub_date <= now`. -/
def publicFilter (now : Time) (p : Post) : Bool :=
  p.is_published && p.category.is_published && decide (p.pub_date ≤ now)

/-- `PostListView.get_queryset` (blog/views.py lines 66-75): filter to
publicly visible posts, annotate each with its comment count, order by
pub_date descending.  No viewer is consulted. -/
def postListQueryset (db : DB) (now : Time) : List FeedEntry :=
  sortKeyDesc (fun e => e.post.pub_date)
    (((db.posts.filter (publicFilter now)).map
      (fun p => { post := p, commentsCount := some (commentsCountOf db p) })))

/-- `ProfileListView.get_queryset` (blog/views.py lines 156-172): resolve
the profile user by username (404 if absent); if the viewer is not the
profile user, filter on `is_published=True` and `pub_date <= now` only (the
source applies no author filter and no category filter in this branch);
if the viewer is the profile user, filter on `author=viewer` only.  Both
branches annotate comment counts and order by pub_date descending. -/
def profileListQueryset (db : DB) (viewer : Viewer) (now : Time)
    (username : String) : Option (List FeedEntry) :=
  match lookupUser db username with
  | none => none
  | some profile =>
    if viewer = some profile.id then
      some (sortKeyDesc (fun e => e.post.pub_date)
        ((db.posts.filter (fun p => p.author = profile.id)).map
          (fun p => { post := p, commentsCount := some (commentsCountOf db p) })))
    else
      some (sortKeyDesc (fun e => e.post.pub_date)
        ((db.posts.filter
            (fun p => p.is_published && decide (p.pub_date ≤ now))).map
          (fun p => { post := p, commentsCount := some (commentsCountOf db p) })))

/-- `CategoryPostListView.get_queryset` (blog/views.py lines 202-209):
filter on the category slug and public visibility.  The source applies no
comment-count annotation and no ordering here, so entries carry `none`. -/
def categoryQueryset (db : DB) (now : Time) (slug : String) :
    List FeedEntry :=
  (db.posts.filter
      (fun p => p.category.slug = slug && p.is_published
        && p.category.is_published && decide (p.pub_date ≤ now))).map
    (fun p => { post := p, commentsCount := none })

/-- `Paginator.num_pages` with `allow_empty_first_page=True` (the ListView
default): `ceil(count / per_page)`, but at least one page so that an empty
object list still has a valid first page. -/
def numPages (count psize : Nat) : Nat :=
  if count = 0 then 1 else (count + psize - 1) / psize

/-- `MultipleObjectMixin.paginate_queryset`: page numbers are 1-indexed;
`Paginator.page` raises `InvalidPage` for a page below 1 or above
`num_pages`, which the ListView turns into Http404 (`none`); a valid page
is the corresponding slice of the object list. -/
def paginateQueryset {α : Type} (l : List α) (psize page : Nat) :
    Option (List α) :=
  if 1 ≤ page ∧ page ≤ numPages l.length psize then
    some ((l.drop ((page - 1) * psize)).take psize)
  else none

/-- The global feed operation: `PostListView` with
`paginate_by = settings.POSTS_PER_PAGE` (the page size is an explicit
parameter here since settings.py is outside the sources). -/
def postListFeed (db : DB) (now : Time) (psize page : Nat) :
    Option (List FeedEntry) :=
  paginateQueryset (postListQueryset db now) psize page

/-- The profile feed operation: queryset resolution (which may 404 on an
unknown username) followed by pagination. -/
def profileFeed (db : DB) (viewer : Viewer) (now : Time) (username : String)
    (psize page : Nat) : Option (List FeedEntry) :=
  match profileListQueryset db viewer now username with
  | none => none
  | some qs => paginateQueryset qs psize page

/-- The category feed operation: `CategoryPostListView`.  Rendering first
paginates the queryset (Http404 on an invalid page), then
`get_context_data` (blog/views.py lines 211-218) resolves the category via
`get_object_or_404(Category, slug=..., is_published=True)`, turning an
unknown or unpublished category into Http404 for the whole feed. -/
def categoryFeed (db : DB) (now : Time) (slug : String)
    (psize page : Nat) : Option (List FeedEntry) :=
  match paginateQueryset (categoryQueryset db now slug) psize page with
  | none => none
  | some items =>
    match lookupPublishedCategory db slug with
    | none => none
    | some _ => some items

/-- Membership is preserved by the stable insertion step. -/
theorem mem_insertByKeyDesc {α : Type} (key : α → Time) (x y : α)
    (l : List α) : y ∈ insertByKeyDesc key x l ↔ y = x ∨ y ∈ l := by
  induction l with
  | nil => simp [insertByKeyDesc]
  | cons z zs ih =>
    unfold insertByKeyDesc
    by_cases h : key x ≥ key z
    · simp [h]
    · simp [h, ih]
      tauto

/-- Sorting does not change the set of feed entries. -/
theorem mem_sortKeyDesc {α : Type} (key : α → Time) (y : α) (l : List α) :
    y ∈ sortKeyDesc key l ↔ y ∈ l := by
  induction l with
  | nil => simp [sortKeyDesc]
  | cons x xs ih =>
    unfold sortKeyDesc
    rw [mem_insertByKeyDesc, ih]
    simp

/-- A page delivered by the paginator only contains elements of the
underlying object list. -/
theorem mem_paginateQueryset {α : Type} (l items : List α)
    (psize page : Nat) (e : α)
    (h : paginateQueryset l psize page = some items) (he : e ∈ items) :
    e ∈ l := by
  unfold paginateQueryset at h
  split at h
  · cases h
    exact List.mem_of_mem_drop (List.mem_of_mem_take he)
  · cases h

/-- Claim C1: for every post p resolvable by pk, viewer v and instant now,
the post-detail operation grants access (returns the post) iff v is p's
author or p is published, its category is published and its pub_date is not
in the future; when that visibility decision is false the operation yields
the not-found outcome. -/
theorem claim_C1_post_detail_visibility (db : DB) (v : Viewer) (now : Time)
    (pk : PostId) (p : Post) (h : lookupPost db pk = some p) :
    (postDetailGetObject db v now pk = some p ↔ isVisible p v now = true)
    ∧ (postDetailGetObject db v now pk = none ↔ isVisible p v now = false) := by
  unfold postDetailGetObject isVisible
  rw [h]
  by_cases ha : v = some p.author <;>
    by_cases hip : p.is_published = true <;>
      by_cases hcp : p.category.is_published = true <;>
        by_cases hd : p.pub_date ≤ now <;>
          simp [ha, hip, hcp, hd, not_le.mpr, lt_of_not_le]

/-- Witness for claim C1 at a concrete database: a published, past-dated
post in a published category, seen by an anonymous viewer. -/
theorem claim_C1_witness :
    lookupPost
        { users := [], categories := [],
          posts := [{ id := 1, author := 7,
                      category := { id := 2, slug := "c", title := "C",
                                    is_published := true },
                      location := "", title := "t", text := "b",
                      pub_date := 0, is_published := true, created_at := 0 }],
          comments := [] } 1
      = some { id := 1, author := 7,
               category := { id := 2, slug := "c", title := "C",
                             is_published := true },
               location := "", title := "t", text := "b",
               pub_date := 0, is_published := true, created_at := 0 } ∧
    (postDetailGetObject
        { users := [], categories := [],
          posts := [{ id := 1, author := 7,
                      category := { id := 2, slug := "c", title := "C",
                                    is_published := true },
                      location := "", title := "t", text := "b",
                      pub_date := 0, is_published := true, created_at := 0 }],
          comments := [] } none 5 1
      = some { id := 1, author := 7,
               category := { id := 2, slug := "c", title := "C",
                             is_published := true },
               location := "", title := "t", text := "b",
               pub_date := 0, is_published := true, created_at := 0 }
      ↔ isVisible
          { id := 1, author := 7,
            category := { id := 2, slug := "c", title := "C",
                          is_published := true },
            location := "", title := "t", text := "b",
            pub_date := 0, is_published := true, created_at := 0 } none 5
          = true) :=
  ⟨by decide,
   (claim_C1_post_detail_visibility _ none 5 1 _ (by decide)).1⟩

/-- Every entry of the global-feed queryset passed the public filter. -/
theorem postListQueryset_public (db : DB) (now : Time) (e : FeedEntry)
    (h : e ∈ postListQueryset db now) : publicFilter now e.post = true := by
  unfold postListQueryset at h
  rw [mem_sortKeyDesc] at h
  obtain ⟨p, hp, rfl⟩ := List.mem_map.mp h
  exact (List.mem_filter.mp hp).2

/-- Every entry of the category-feed queryset passed the category filter. -/
theorem categoryQueryset_public (db : DB) (now : Time) (slug : String)
    (e : FeedEntry) (h : e ∈ categoryQueryset db now slug) :
    e.post.is_published = true ∧ e.post.category.is_published = true
    ∧ e.post.pub_date ≤ now := by
  unfold categoryQueryset at h
  obtain ⟨p, hp, rfl⟩ := List.mem_map.mp h
  have := (List.mem_filter.mp hp).2
  simp only [Bool.and_eq_true, decide_eq_true_eq] at this
  exact ⟨this.1.1.2, this.1.2, this.2⟩

/-- The unpack of `publicFilter`. -/
theorem publicFilter_eq_true (now : Time) (p : Post)
    (h : publicFilter now p = true) :
    p.is_published = true ∧ p.category.is_published = true
    ∧ p.pub_date ≤ now := by
  unfold publicFilter at h
  simp only [Bool.and_eq_true, decide_eq_true_eq] at h
  exact ⟨h.1.1, h.1.2, h.2⟩

/-- Claim C3: for every viewer (the feed functions take none) and instant
now, the global feed and every category feed — both at the queryset level
and on every delivered page — contain no unpublished post, no post of an
unpublished category, and no future-dated post. -/
theorem claim_C3_public_feeds_restricted (db : DB) (now : Time)
    (slug : String) (psize page : Nat) (e : FeedEntry)
    (items citems : List FeedEntry) :
    (e ∈ postListQueryset db now →
      e.post.is_published = true ∧ e.post.category.is_published = true
      ∧ e.post.pub_date ≤ now)
    ∧ (e ∈ categoryQueryset db now slug →
      e.post.is_published = true ∧ e.post.category.is_published = true
      ∧ e.post.pub_date ≤ now)
    ∧ (postListFeed db now psize page = some items → e ∈ items →
      e.post.is_published = true ∧ e.post.category.is_published = true
      ∧ e.post.pub_date ≤ now)
    ∧ (categoryFeed db now slug psize page = some citems → e ∈ citems →
      e.post.is_published = true ∧ e.post.category.is_published = true
      ∧ e.post.pub_date ≤ now) := by
  refine ⟨?_, ?_, ?_, ?_⟩
  · intro h
    exact publicFilter_eq_true now e.post (postListQueryset_public db now e h)
  · intro h
    exact categoryQueryset_public db now slug e h
  · intro h he
    exact publicFilter_eq_true now e.post
      (postListQueryset_public db now e
        (mem_paginateQueryset _ _ _ _ _ h he))
  · intro h he
    unfold categoryFeed at h
    split at h
    · cases h
    · rename_i items' hpag
      split at h
      · cases h
      · cases h
        exact categoryQueryset_public db now slug e
          (mem_paginateQueryset _ _ _ _ _ hpag he)

/-- Concrete database for the claim C3 witness: one published past post. -/
def dbC3 : DB :=
  { users := []
    categories := [{ id := 1, slug := "c", title := "C", is_published := true }]
    posts := [{ id := 1, author := 1,
                category := { id := 1, slug := "c", title := "C",
                              is_published := true },
                location := "", title := "t", text := "",
                pub_date := 0, is_published := true, created_at := 0 }]
    comments := [] }

/-- Witness for claim C3: the single entry of dbC3's global feed satisfies
all three restrictions. -/
theorem claim_C3_witness :
    ({ post := { id := 1, author := 1,
                 category := { id := 1, slug := "c", title := "C",
                               is_published := true },
                 location := "", title := "t", text := "",
                 pub_date := 0, is_published := true, created_at := 0 },
       commentsCount := some 0 } : FeedEntry).post.is_published = true ∧
    ({ post := { id := 1, author := 1,
                 category := { id := 1, slug := "c", title := "C",
                               is_published := true },
                 location := "", title := "t", text := "",
                 pub_date := 0, is_published := true, created_at := 0 },
       commentsCount := some 0 } : FeedEntry).post.category.is_published = true ∧
    ({ post := { id := 1, author := 1,
                 category := { id := 1, slug := "c", title := "C",
                               is_published := true },
                 location := "", title := "t", text := "",
                 pub_date := 0, is_published := true, created_at := 0 },
       commentsCount := some 0 } : FeedEntry).post.pub_date ≤ (5 : Time) :=
  (claim_C3_public_feeds_restricted dbC3 5 "c" 10 1 _ [] []).1 (by decide)

/-- Concrete inputs demonstrating the profile-feed divergence: user u1
(id 1) owns no listed post; u2 (id 2) authored a published past-dated post
in a published category; u1 also authored a published post whose category
is unpublished. -/
def catC2pub : Category :=
  { id := 1, slug := "c", title := "C", is_published := true }

def catC2unpub : Category :=
  { id := 2, slug := "d", title := "D", is_published := false }

def postC2other : Post :=
  { id := 10, author := 2, category := catC2pub, location := "",
    title := "by-u2", text := "", pub_date := 0, is_published := true,
    created_at := 0 }

def postC2unpubcat : Post :=
  { id := 11, author := 1, category := catC2unpub, location := "",
    title := "unpub-cat", text := "", pub_date := 0, is_published := true,
    created_at := 0 }

def dbC2 : DB :=
  { users := [{ id := 1, username := "u1" }, { id := 2, username := "u2" }]
    categories := [catC2pub, catC2unpub]
    posts := [postC2other, postC2unpubcat]
    comments := [] }

/-- Claim C2 fails on the code: the profile feed of u1, requested by an
anonymous (non-owner) viewer, contains a post authored by u2 — the
non-owner branch of `ProfileListView.get_queryset` filters only on
`is_published` and `pub_date`, never on the author — and it also contains
a post whose category is unpublished, since no category filter is applied
either. -/
theorem claim_C2_profile_feed_bug :
    profileListQueryset dbC2 none 5 "u1"
      = some [{ post := postC2other, commentsCount := some 0 },
              { post := postC2unpubcat, commentsCount := some 0 }]
    ∧ postC2other.author ≠ 1
    ∧ postC2unpubcat.category.is_published = false
    ∧ lookupUser dbC2 "u1" = some { id := 1, username := "u1" } := by
  decide

/-- Outcome of a guarded post mutation: Http404, a redirect to the post's
detail view (the soft denial in `PostUpdateMixin.dispatch`), or the applied
mutation. -/
inductive MutationOutcome where
  | notFound
  | redirectDetail (post_pk : PostId)
  | done
deriving Repr, DecidableEq

/-- The data a `PostForm` submission can carry (blog/forms.py lines 6-14):
every Post model field except the excluded `author` and `is_published` and
the automatic `id`/`created_at`. -/
structure PostFormData where
  title : String
  text : String
  pub_date : Time
  category : Category
  location : String
deriving Repr, DecidableEq

/-- Saving a bound `PostForm` on an instance: the form's fields overwrite
the instance, the excluded fields are untouched. -/
def applyPostForm (data : PostFormData) (p : Post) : Post :=
  { p with title := data.title, text := data.text,
           pub_date := data.pub_date, category := data.category,
           location := data.location }

/-- `PostUpdateView` = LoginRequiredMixin + PostUpdateMixin + UpdateView:
the viewer is authenticated (LoginRequiredMixin), `dispatch` resolves the
post (Http404 if absent) and redirects any non-author to the post's detail
view before any mutation; an author's valid submission saves the form. -/
def editPost (db : DB) (viewer : UserId) (post_pk : PostId)
    (data : PostFormData) : DB × MutationOutcome :=
  match lookupPost db post_pk with
  | none => (db, MutationOutcome.notFound)
  | some post =>
    if viewer ≠ post.author then (db, MutationOutcome.redirectDetail post_pk)
    else
      ({ db with
          posts := db.posts.map
              (fun q => if q.id = post_pk then applyPostForm data q else q) },
       MutationOutcome.done)

/-- `PostDeleteView`: same guard as `editPost`; an author's confirmation
removes the post row. -/
def deletePost (db : DB) (viewer : UserId) (post_pk : PostId) :
    DB × MutationOutcome :=
  match lookupPost db post_pk with
  | none => (db, MutationOutcome.notFound)
  | some post =>
    if viewer ≠ post.author then (db, MutationOutcome.redirectDetail post_pk)
    else
      ({ db with posts := db.posts.filter (fun q => q.id ≠ post_pk) },
       MutationOutcome.done)

/-- Outcome of a guarded comment mutation: Http404 or the applied mutation
(followed by a redirect to the comment's post's detail view). -/
inductive CommentOutcome where
  | notFound
  | done (redirect_post : PostId)
deriving Repr, DecidableEq

/-- `CommentUpdateMixin.get_object` (blog/views.py lines 29-37): resolve
the comment by pk scoped to the supplied post pk (Http404 if no such pair),
then Http404 if the resolved comment's author is not the viewer. -/
def commentUpdateGetObject (db : DB) (viewer : UserId) (post_pk : PostId)
    (comment_pk : CommentId) : Option Comment :=
  match lookupComment db post_pk comment_pk with
  | none => none
  | some c => if c.author ≠ viewer then none else some c

/-- `CommentUpdateView`: on a resolved, owned comment, `CommentForm`
(fields `('text',)`) overwrites the text only. -/
def editComment (db : DB) (viewer : UserId) (post_pk : PostId)
    (comment_pk : CommentId) (newText : String) : DB × CommentOutcome :=
  match commentUpdateGetObject db viewer post_pk comment_pk with
  | none => (db, CommentOutcome.notFound)
  | some c =>
    ({ db with
        comments := db.comments.map
            (fun d => if d.id = c.id then { d with text := newText } else d) },
     CommentOutcome.done c.post)

/-- `CommentDeleteView`: on a resolved, owned comment, remove the row. -/
def deleteComment (db : DB) (viewer : UserId) (post_pk : PostId)
    (comment_pk : CommentId) : DB × CommentOutcome :=
  match commentUpdateGetObject db viewer post_pk comment_pk with
  | none => (db, CommentOutcome.notFound)
  | some c =>
    ({ db with comments := db.comments.filter (fun d => d.id ≠ c.id) },
     CommentOutcome.done c.post)

/-- A successful pk lookup returns a post with that pk. -/
theorem lookupPost_id (db : DB) (pk : PostId) (p : Post)
    (h : lookupPost db pk = some p) : p.id = pk := by
  unfold lookupPost at h
  cases hf : db.posts.filter (fun q => decide (q.id = pk)) with
  | nil => rw [hf] at h; cases h
  | cons a t =>
    rw [hf] at h
    cases h
    have : p ∈ db.posts.filter (fun q => decide (q.id = pk)) := by
      rw [hf]; exact List.mem_cons_self _ _
    simpa using (List.mem_filter.mp this).2

/-- A successful scoped comment lookup returns a comment with the requested
pk that belongs to the requested post. -/
theorem lookupComment_ids (db : DB) (ppk : PostId) (cpk : CommentId)
    (c : Comment) (h : lookupComment db ppk cpk = some c) :
    c.id = cpk ∧ c.post = ppk := by
  unfold lookupComment at h
  cases hf : db.comments.filter
      (fun d => decide (d.id = cpk) && decide (d.post = ppk)) with
  | nil => rw [hf] at h; cases h
  | cons a t =>
    rw [hf] at h
    cases h
    have : c ∈ db.comments.filter
        (fun d => decide (d.id = cpk) && decide (d.post = ppk)) := by
      rw [hf]; exact List.mem_cons_self _ _
    simpa using (List.mem_filter.mp this).2

/-- Claim C4: for every existing post p and authenticated viewer v other
than p's author, both the edit-post and the delete-post operation answer
with a redirect to p's detail view and leave the database untouched. -/
theorem claim_C4_nonauthor_post_mutation (db : DB) (v : UserId)
    (pk : PostId) (p : Post) (data : PostFormData)
    (h : lookupPost db pk = some p) (hv : v ≠ p.author) :
    editPost db v pk data = (db, MutationOutcome.redirectDetail p.id)
    ∧ deletePost db v pk = (db, MutationOutcome.redirectDetail p.id) := by
  have hid : p.id = pk := lookupPost_id db pk p h
  unfold editPost deletePost
  rw [h, hid]
  simp [hv]

/-- Witness for claim C4: viewer 2 attempts to edit and delete post 1,
which is owned by user 1. -/
theorem claim_C4_witness :
    editPost
        { users := [], categories := [],
          posts := [{ id := 1, author := 1,
                      category := { id := 1, slug := "c", title := "C",
                                    is_published := true },
                      location := "", title := "t", text := "",
                      pub_date := 0, is_published := true, created_at := 0 }],
          comments := [] } 2 1
        { title := "h", text := "h", pub_date := 9,
          category := { id := 1, slug := "c", title := "C",
                        is_published := true },
          location := "x" }
      = ({ users := [], categories := [],
           posts := [{ id := 1, author := 1,
                       category := { id := 1, slug := "c", title := "C",
                                     is_published := true },
                       location := "", title := "t", text := "",
                       pub_date := 0, is_published := true, created_at := 0 }],
           comments := [] }, MutationOutcome.redirectDetail 1) :=
  (claim_C4_nonauthor_post_mutation
    { users := [], categories := [],
      posts := [{ id := 1, author := 1,
                  category := { id := 1, slug := "c", title := "C",
                                is_published := true },
                  location := "", title := "t", text := "",
                  pub_date := 0, is_published := true, created_at := 0 }],
      comments := [] } 2 1
    { id := 1, author := 1,
      category := { id := 1, slug := "c", title := "C",
                    is_published := true },
      location := "", title := "t", text := "",
      pub_date := 0, is_published := true, created_at := 0 }
    { title := "h", text := "h", pub_date := 9,
      category := { id := 1, slug := "c", title := "C",
                    is_published := true },
      location := "x" }
    (by decide) (by decide)).1

/-- Claim C5: for every existing comment c and authenticated viewer v other
than c's author, both the edit-comment and the delete-comment operation
(addressed with c's own post and comment pks) answer not-found and leave
the database untouched. -/
theorem claim_C5_nonauthor_comment_mutation (db : DB) (v : UserId)
    (c : Comment) (newText : String)
    (h : lookupComment db c.post c.id = some c) (hv : v ≠ c.author) :
    editComment db v c.post c.id newText = (db, CommentOutcome.notFound)
    ∧ deleteComment db v c.post c.id = (db, CommentOutcome.notFound) := by
  unfold editComment deleteComment commentUpdateGetObject
  rw [h]
  have : c.author ≠ v := fun hh => hv hh.symm
  simp [this]

/-- Witness for claim C5: viewer 2 attempts to edit and delete comment 5 on
post 1, authored by user 1. -/
theorem claim_C5_witness :
    editComment
        { users := [], categories := [], posts := [],
          comments := [{ id := 5, post := 1, author := 1, text := "hi",
                         created_at := 0 }] } 2 1 5 "bye"
      = ({ users := [], categories := [], posts := [],
           comments := [{ id := 5, post := 1, author := 1, text := "hi",
                          created_at := 0 }] }, CommentOutcome.notFound) :=
  (claim_C5_nonauthor_comment_mutation _ 2
    { id := 5, post := 1, author := 1, text := "hi", created_at := 0 } "bye"
    (by decide) (by decide)).1

/-- Claim C6: an edit-comment or delete-comment request whose supplied post
pk differs from the stored post of every comment with the supplied comment
pk answers not-found, for every viewer — in particular for the comment's
own author. -/
theorem claim_C6_cross_post_not_found (db : DB) (v : UserId)
    (ppk : PostId) (c : Comment) (newText : String)
    (hmem : c ∈ db.comments) (hneq : c.post ≠ ppk)
    (huniq : ∀ d ∈ db.comments, d.id = c.id → d = c) :
    editComment db v ppk c.id newText = (db, CommentOutcome.notFound)
    ∧ deleteComment db v ppk c.id = (db, CommentOutcome.notFound) := by
  have hlook : lookupComment db ppk c.id = none := by
    unfold lookupComment
    have hnil : db.comments.filter
        (fun d => decide (d.id = c.id) && decide (d.post = ppk)) = [] := by
      rw [List.filter_eq_nil_iff]
      intro d hd
      simp only [Bool.and_eq_true, decide_eq_true_eq, not_and]
      intro hid
      rw [huniq d hd hid]
      exact hneq
    rw [hnil]
    rfl
  unfold editComment deleteComment commentUpdateGetObject
  rw [hlook]
  exact ⟨rfl, rfl⟩

/-- Witness for claim C6: the author of comment 5, which belongs to post 1,
requests its removal through post 2 and is answered not-found. -/
theorem claim_C6_witness :
    deleteComment
        { users := [], categories := [], posts := [],
          comments := [{ id := 5, post := 1, author := 1, text := "hi",
                         created_at := 0 }] } 1 2 5
      = ({ users := [], categories := [], posts := [],
           comments := [{ id := 5, post := 1, author := 1, text := "hi",
                          created_at := 0 }] }, CommentOutcome.notFound) :=
  (claim_C6_cross_post_not_found _ 1 2
    { id := 5, post := 1, author := 1, text := "hi", created_at := 0 } ""
    (by decide) (by decide) (by decide)).2

/-- Claim C7: when the requested slug matches no stored category, or only
categories that are unpublished, the category-feed operation answers
not-found for the whole feed — never an empty page. -/
theorem claim_C7_category_feed_not_found (db : DB) (now : Time)
    (slug : String) (psize page : Nat)
    (h : ∀ c ∈ db.categories, c.slug = slug → c.is_published = false) :
    categoryFeed db now slug psize page = none := by
  have hlook : lookupPublishedCategory db slug = none := by
    unfold lookupPublishedCategory
    have hnil : db.categories.filter
        (fun c => decide (c.slug = slug) && c.is_published) = [] := by
      rw [List.filter_eq_nil_iff]
      intro c hc
      simp only [Bool.and_eq_true, decide_eq_true_eq, not_and]
      intro hs
      simpa using h c hc hs
    rw [hnil]
    rfl
  unfold categoryFeed
  split
  · rfl
  · rw [hlook]

/-- Witness for claim C7: category "news" exists but is unpublished; page 1
of its feed is not-found even though the queryset side would be empty. -/
theorem claim_C7_witness :
    categoryFeed
        { users := [],
          categories := [{ id := 1, slug := "news", title := "N",
                           is_published := false }],
          posts := [], comments := [] } 5 "news" 10 1 = none :=
  claim_C7_category_feed_not_found _ 5 "news" 10 1 (by decide)

/-- A page number beyond `num_pages` makes the paginator raise
`InvalidPage`, which the ListView reports as Http404. -/
theorem paginate_out_of_range {α : Type} (l : List α) (psize page : Nat)
    (h : numPages l.length psize < page) :
    paginateQueryset l psize page = none := by
  have hn : ¬(1 ≤ page ∧ page ≤ numPages l.length psize) :=
    fun hc => (not_le.mpr h) hc.2
  simp [paginateQueryset, hn]

/-- Concrete database for claim C8: exactly one publicly visible post. -/
def catC8 : Category :=
  { id := 1, slug := "c", title := "C", is_published := true }

def postC8 : Post :=
  { id := 1, author := 1, category := catC8, location := "", title := "t",
    text := "", pub_date := 0, is_published := true, created_at := 0 }

def dbC8 : DB :=
  { users := [], categories := [catC8], posts := [postC8], comments := [] }

/-- Claim C8 fails on the code: with one visible post and page size 10 the
global feed has exactly one page, and requesting page 2 yields the
not-found outcome — not the content of the last valid page, which page 1
delivers. -/
theorem claim_C8_counterexample :
    postListFeed dbC8 5 10 2 = none
    ∧ postListFeed dbC8 5 10 1
      = some [{ post := postC8, commentsCount := some 0 }] := by
  decide

/-- Claim C8 as amended: for every feed scope, a page number greater than
the number of available pages yields the not-found outcome (Http404); the
request is not clamped to the last page. -/
theorem claim_C8_out_of_range_not_found (db : DB) (v : Viewer) (now : Time)
    (slug username : String) (psize page : Nat) (qs : List FeedEntry) :
    (numPages (postListQueryset db now).length psize < page →
      postListFeed db now psize page = none)
    ∧ (numPages (categoryQueryset db now slug).length psize < page →
      categoryFeed db now slug psize page = none)
    ∧ (profileListQueryset db v now username = some qs →
      numPages qs.length psize < page →
      profileFeed db v now username psize page = none) := by
  refine ⟨?_, ?_, ?_⟩
  · intro h
    unfold postListFeed
    exact paginate_out_of_range _ _ _ h
  · intro h
    unfold categoryFeed
    rw [paginate_out_of_range _ _ _ h]
  · intro hq h
    unfold profileFeed
    rw [hq]
    exact paginate_out_of_range _ _ _ h

/-- Witness for the amended claim C8: page 2 of dbC8's one-page global feed
is not-found. -/
theorem claim_C8_witness :
    numPages (postListQueryset dbC8 5).length 10 < 2
    ∧ postListFeed dbC8 5 10 2 = none :=
  ⟨by decide,
   (claim_C8_out_of_range_not_found dbC8 none 5 "c" "u" 10 2 []).1 (by decide)⟩

/-- Concrete database for claim C9: one publicly visible post in category
"c" carrying one persisted comment. -/
def catC9 : Category :=
  { id := 1, slug := "c", title := "C", is_published := true }

def postC9 : Post :=
  { id := 1, author := 1, category := catC9, location := "", title := "t",
    text := "", pub_date := 0, is_published := true, created_at := 0 }

def dbC9 : DB :=
  { users := [], categories := [catC9], posts := [postC9],
    comments := [{ id := 1, post := 1, author := 1, text := "x",
                   created_at := 0 }] }

/-- Claim C9 fails on the code: the category feed lists postC9 with no
comment-count annotation at all (`CategoryPostListView.get_queryset` never
calls annotate), although one persisted comment references the post. -/
theorem claim_C9_counterexample :
    categoryFeed dbC9 5 "c" 10 1
      = some [{ post := postC9, commentsCount := none }]
    ∧ commentsCountOf dbC9 postC9 = 1 := by
  decide

/-- Claim C9 as amended: posts listed by the global and profile feeds carry
a comment-count annotation equal to the number of persisted comments
referencing them at query time; posts listed by the category feed carry no
comment-count annotation. -/
theorem claim_C9_feed_annotations (db : DB) (v : Viewer) (now : Time)
    (username slug : String) (qs : List FeedEntry) (e : FeedEntry) :
    (e ∈ postListQueryset db now →
      e.commentsCount = some (commentsCountOf db e.post))
    ∧ (profileListQueryset db v now username = some qs → e ∈ qs →
      e.commentsCount = some (commentsCountOf db e.post))
    ∧ (e ∈ categoryQueryset db now slug → e.commentsCount = none) := by
  refine ⟨?_, ?_, ?_⟩
  · intro h
    unfold postListQueryset at h
    rw [mem_sortKeyDesc] at h
    obtain ⟨p, hp, rfl⟩ := List.mem_map.mp h
    rfl
  · intro hq he
    unfold profileListQueryset at hq
    split at hq
    · cases hq
    · split at hq <;>
      · cases hq
        rw [mem_sortKeyDesc] at he
        obtain ⟨p, hp, rfl⟩ := List.mem_map.mp he
        rfl
  · intro h
    unfold categoryQueryset at h
    obtain ⟨p, hp, rfl⟩ := List.mem_map.mp h
    rfl

/-- Witness for the amended claim C9: the single global-feed entry of dbC9
carries the live count of its one comment. -/
theorem claim_C9_witness :
    ({ post := postC9, commentsCount := some 1 } : FeedEntry).commentsCount
      = some (commentsCountOf dbC9
          ({ post := postC9, commentsCount := some 1 } : FeedEntry).post) :=
  (claim_C9_feed_annotations dbC9 none 5 "u" "c" []
    { post := postC9, commentsCount := some 1 }).1 (by decide)

/-- The fields of the Post model, for reasoning about which ones the
`PostForm` exposes. -/
inductive PostField where
  | id
  | author
  | category
  | location
  | title
  | text
  | pub_date
  | is_published
  | created_at
deriving Repr, DecidableEq

/-- The non-automatic Post model fields a ModelForm can expose (`id` is the
primary key and `created_at` is auto-set, so neither is form-editable). -/
def postEditableModelFields : List PostField :=
  [PostField.author, PostField.category, PostField.location,
   PostField.title, PostField.text, PostField.pub_date,
   PostField.is_published]

/-- blog/forms.py lines 6-14: `PostForm.Meta.exclude = ('author',
'is_published')`. -/
def postFormExcluded : List PostField :=
  [PostField.author, PostField.is_published]

/-- The field set of `PostForm`: every editable model field that is not
excluded. -/
def postFormFields : List PostField :=
  postEditableModelFields.filter (fun f => decide (f ∉ postFormExcluded))

/-- Claim C10 fails on the code: `is_published` is a Post field distinct
from `author`, yet it is not among the form's editable fields — the form
excludes it alongside `author`, so not every non-author field is editable
through the edit-post operation. -/
theorem claim_C10_counterexample :
    PostField.is_published ∉ postFormFields
    ∧ PostField.is_published ≠ PostField.author
    ∧ PostField.is_published ∈ postEditableModelFields
    ∧ PostField.title ∈ postFormFields := by
  decide

/-- Editing rewrites exactly the posts carrying the edited pk, and the
rewrite preserves the pk. -/
theorem filter_map_applyPostForm (data : PostFormData) (pk : PostId)
    (l : List Post) :
    (l.map (fun q => if q.id = pk then applyPostForm data q else q)).filter
        (fun q => q.id = pk)
      = (l.filter (fun q => q.id = pk)).map
          (fun q => applyPostForm data q) := by
  induction l with
  | nil => rfl
  | cons a t ih =>
    simp only [applyPostForm] at ih ⊢
    by_cases h : a.id = pk
    · simp [h, ih]
    · simp [h, ih]

/-- Claim C10 as amended: when a post's author edits it, the stored result
keeps the original `author` (and also the original `is_published`, `id`,
and `created_at`, which the form equally cannot touch), while the form's
own fields — title, text, pub_date, category, location — take the
submitted values. -/
theorem claim_C10_author_edit_frame (db : DB) (v : UserId) (pk : PostId)
    (p : Post) (data : PostFormData)
    (h : lookupPost db pk = some p) (hv : v = p.author) :
    (editPost db v pk data).2 = MutationOutcome.done
    ∧ lookupPost (editPost db v pk data).1 pk = some (applyPostForm data p)
    ∧ (applyPostForm data p).author = p.author
    ∧ (applyPostForm data p).is_published = p.is_published
    ∧ (applyPostForm data p).id = p.id
    ∧ (applyPostForm data p).created_at = p.created_at
    ∧ (applyPostForm data p).title = data.title
    ∧ (applyPostForm data p).text = data.text
    ∧ (applyPostForm data p).pub_date = data.pub_date
    ∧ (applyPostForm data p).category = data.category
    ∧ (applyPostForm data p).location = data.location := by
  have hed : editPost db v pk data
      = ({ db with
            posts := db.posts.map
                (fun q => if q.id = pk then applyPostForm data q else q) },
         MutationOutcome.done) := by
    unfold editPost
    rw [h]
    simp [hv]
  refine ⟨by rw [hed], ?_, rfl, rfl, rfl, rfl, rfl, rfl, rfl, rfl, rfl⟩
  rw [hed]
  show ((db.posts.map
      (fun q => if q.id = pk then applyPostForm data q else q)).filter
        (fun q => decide (q.id = pk))).head? = some (applyPostForm data p)
  rw [show (fun q : Post => decide (q.id = pk))
      = (fun q : Post => q.id = pk) from rfl]
  rw [filter_map_applyPostForm]
  unfold lookupPost at h
  rw [List.head?_map]
  rw [show (db.posts.filter (fun q : Post => q.id = pk)).head?
      = some p from h]
  rfl

/-- Witness for the amended claim C10: user 1 edits their own post 1. -/
theorem claim_C10_witness :
    (editPost
        { users := [], categories := [],
          posts := [{ id := 1, author := 1,
                      category := { id := 1, slug := "c", title := "C",
                                    is_published := true },
                      location := "", title := "t", text := "",
                      pub_date := 0, is_published := false,
                      created_at := 0 }],
          comments := [] } 1 1
        { title := "new", text := "n", pub_date := 3,
          category := { id := 1, slug := "c", title := "C",
                        is_published := true },
          location := "loc" }).2 = MutationOutcome.done :=
  (claim_C10_author_edit_frame
    { users := [], categories := [],
      posts := [{ id := 1, author := 1,
                  category := { id := 1, slug := "c", title := "C",
                                is_published := true },
                  location := "", title := "t", text := "",
                  pub_date := 0, is_published := false, created_at := 0 }],
      comments := [] } 1 1
    { id := 1, author := 1,
      category := { id := 1, slug := "c", title := "C",
                    is_published := true },
      location := "", title := "t", text := "",
      pub_date := 0, is_published := false, created_at := 0 }
    { title := "new", text := "n", pub_date := 3,
      category := { id := 1, slug := "c", title := "C",
                    is_published := true },
      location := "loc" }
    (by decide) (by decide)).1
